import Mathlib

/-!
Verification of the acquisition-and-publication engine of the
`inverter_11k_modbus` add-on (`src/fetch_inverter_data.py`), as a shallow
embedding in Lean 4.  Python dicts become association lists with
last-insert-wins update, Python numbers become `ℤ`/`ℚ`, Python exceptions
become `Except`, and the Modbus transport becomes an oracle function from
(page address, attempt index) to the list of register values that the
attempt returns (`[]` for a failed or empty read, matching
`read_registers`, which catches every exception and returns `[]`).
-/

namespace InverterAddon

set_option maxRecDepth 8192

/-! ## Python dict model (register maps) -/

/-- A Python dict with integer keys and values, as built by `read_modbus`. -/
abbrev RegMap := List (ℤ × ℤ)

/-- Dict lookup: the first binding of the key (insertions keep keys unique). -/
def dictLookup : RegMap → ℤ → Option ℤ
  | [], _ => none
  | (k, v) :: rest, key => if k = key then some v else dictLookup rest key

/-- Dict insertion with override, keeping keys unique. -/
def dictInsert (m : RegMap) (k v : ℤ) : RegMap :=
  m.filter (fun p => !(p.1 = k : Bool)) ++ [(k, v)]

/-- Python `m |= kvs`: later bindings override earlier ones. -/
def dictUpdate (m : RegMap) (kvs : List (ℤ × ℤ)) : RegMap :=
  kvs.foldl (fun acc p => dictInsert acc p.1 p.2) m

/-! ## Dynamically typed values

`get_telemetry` passes its arguments to `process_register` in swapped
positions, so the embedding keeps the dynamic typing of Python for the two
subscripting operands: a value is either an `int` or a register-map dict. -/

/-- A Python value appearing as an operand of `register_map[address]`. -/
inductive PyVal where
  | int (n : ℤ)
  | dict (m : RegMap)
deriving DecidableEq

/-- Python runtime errors raised on the telemetry path. -/
inductive PyErr where
  /-- `TypeError` (subscripting a non-dict, or a non-int key). -/
  | typeError
  /-- `KeyError k` (dict subscript with an absent key). -/
  | keyError (k : ℤ)
deriving DecidableEq

/-- Python subscript `container[key]` for the values above. -/
def pySubscript (container key : PyVal) : Except PyErr ℤ :=
  match container with
  | .int _ => .error .typeError
  | .dict m =>
    match key with
    | .dict _ => .error .typeError
    | .int k =>
      match dictLookup m k with
      | some v => .ok v
      | none => .error (.keyError k)

/-! ## Rounding (Python `round`) -/

/-- Python `round` to an integer: nearest, ties to even. -/
def rintHalfEven (x : ℚ) : ℤ :=
  let fl := ⌊x⌋
  let fr := x - fl
  if fr < 1 / 2 then fl
  else if 1 / 2 < fr then fl + 1
  else if fl % 2 = 0 then fl else fl + 1

/-- Python `round(x, d)` for `d ≥ 0`, over exact rationals. -/
def pyRound (x : ℚ) (d : ℕ) : ℚ :=
  (rintHalfEven (x * 10 ^ d) : ℚ) / 10 ^ d

/-! ## `SolarInverter.process_register` (the register decoder) -/

/-- `SolarInverter.process_register(register_map, address, decimals, signed)`:
subscript, twos-complement reinterpretation, fixed-point scaling. -/
def process_register (register_map address : PyVal) (decimals : ℕ)
    (signed : Bool) : Except PyErr ℚ := do
  let v ← pySubscript register_map address
  let sv : ℤ := if signed = true ∧ 32767 < v then v - 65536 else v
  if 0 < decimals then
    pure (pyRound ((sv : ℚ) / 10 ^ decimals) decimals)
  else
    pure ((sv : ℚ))

/-! ## `SolarInverter.get_telemetry` (the telemetry mapper) -/

/-- One line of the telemetry schema: feedback key, register address,
decimals, signedness — exactly one `process_register` call site. -/
structure SchemaEntry where
  key : String
  address : ℤ
  decimals : ℕ
  signed : Bool
deriving DecidableEq

/-- The fixed schema of `get_telemetry`, in source call order. -/
def telemetrySchema : List SchemaEntry :=
  [⟨"battery_voltage", 277, 1, false⟩,
   ⟨"battery_current", 278, 1, true⟩,
   ⟨"battery_power", 279, 0, true⟩,
   ⟨"battery_soc", 280, 0, false⟩,
   ⟨"grid_input_voltage", 338, 1, false⟩,
   ⟨"grid_line_voltage", 342, 1, false⟩,
   ⟨"grid_power", 340, 0, false⟩,
   ⟨"l1_voltage", 346, 1, false⟩,
   ⟨"l1_current", 347, 1, false⟩,
   ⟨"l1_power", 348, 0, true⟩,
   ⟨"l1_apparent_power", 349, 0, true⟩,
   ⟨"l1_load", 350, 0, false⟩,
   ⟨"l2_voltage", 384, 1, false⟩,
   ⟨"l2_current", 385, 1, false⟩,
   ⟨"l2_apparent_power", 386, 0, true⟩,
   ⟨"l2_power", 387, 0, true⟩,
   ⟨"l2_load", 388, 0, false⟩,
   ⟨"total_output_power", 344, 0, false⟩,
   ⟨"total_output_load", 256, 0, false⟩,
   ⟨"pv1_voltage", 351, 1, false⟩,
   ⟨"pv1_current", 352, 1, false⟩,
   ⟨"pv1_power", 353, 0, false⟩,
   ⟨"pv2_voltage", 389, 1, false⟩,
   ⟨"pv2_current", 390, 1, false⟩,
   ⟨"pv2_power", 391, 0, false⟩,
   ⟨"total_pv_power", 302, 0, false⟩,
   ⟨"year", 696, 0, false⟩,
   ⟨"month", 697, 0, false⟩,
   ⟨"day", 698, 0, false⟩,
   ⟨"hour", 699, 0, false⟩,
   ⟨"minute", 700, 0, false⟩,
   ⟨"second", 701, 0, false⟩,
   ⟨"energy_today", 702, 2, false⟩,
   ⟨"energy_year", 704, 2, false⟩,
   ⟨"voltage_conf", 606, 1, false⟩,
   ⟨"l2_power_conf", 607, 0, false⟩,
   ⟨"frequency_conf", 608, 0, false⟩,
   ⟨"floating_charging_voltage", 638, 1, false⟩,
   ⟨"max_total_charging_current", 640, 1, false⟩,
   ⟨"max_grid_charging_current", 641, 1, false⟩,
   ⟨"soc_point_back_to_utility", 644, 1, false⟩,
   ⟨"l1_cutoff_voltage", 645, 1, false⟩,
   ⟨"l2_cutoff_voltage", 646, 1, false⟩]

/-- A decoded telemetry snapshot: the `"normal"` feedback dict. -/
abbrev Snap := List (String × ℚ)

/-- Sequential evaluation of the schema, fail-fast on the first raised
error, with the argument order of the source call sites:
`self.process_register(ADDRESS, register_map, decimals, signed)` — the
literal address is the first positional argument and the map the second. -/
def telemetryFields (register_map : PyVal) : List SchemaEntry → Except PyErr Snap
  | [] => .ok []
  | e :: rest => do
    let v ← process_register (.int e.address) register_map e.decimals e.signed
    let tail ← telemetryFields register_map rest
    pure ((e.key, v) :: tail)

/-- `SolarInverter.get_telemetry(register_map)`. -/
def get_telemetry (register_map : PyVal) : Except PyErr Snap :=
  telemetryFields register_map telemetrySchema

/-- A register map holding every schema address (value 100 everywhere):
no address needed by the mapper is missing from it. -/
def completeMap : RegMap := telemetrySchema.map (fun e => (e.address, 100))

/-- The decoder contract written from the words of the spec (section 4.1
RegisterDecoder): twos-complement reinterpretation for signed values
above 32767, then `round(value / 10^decimals, decimals)` for
`decimals > 0`, identity for `decimals = 0`.  Stated with the exact
division because the quotient already has exactly `decimals` fractional
digits, so the rounding step is the identity (proved below). -/
def decodeSpec (v : ℤ) (decimals : ℕ) (signed : Bool) : ℚ :=
  let sv : ℤ := if signed = true ∧ 32767 < v then v - 65536 else v
  if 0 < decimals then (sv : ℚ) / 10 ^ decimals else (sv : ℚ)

lemma rintHalfEven_intCast (n : ℤ) : rintHalfEven (n : ℚ) = n := by
  unfold rintHalfEven
  norm_num

lemma pyRound_int_div (n : ℤ) (d : ℕ) :
    pyRound ((n : ℚ) / 10 ^ d) d = (n : ℚ) / 10 ^ d := by
  unfold pyRound
  rw [div_mul_cancel₀ _ (by positivity : (10 : ℚ) ^ d ≠ 0), rintHalfEven_intCast]

lemma pySubscript_found (m : RegMap) (a v : ℤ) (hv : dictLookup m a = some v) :
    pySubscript (.dict m) (.int a) = .ok v := by
  simp [pySubscript, hv]

lemma process_register_eval (m : RegMap) (a v : ℤ) (d : ℕ) (s : Bool)
    (hv : dictLookup m a = some v) :
    process_register (.dict m) (.int a) d s = .ok (decodeSpec v d s) := by
  rcases Nat.eq_zero_or_pos d with hd | hd
  · subst hd
    simp [process_register, decodeSpec, pySubscript_found m a v hv]
  · simp only [process_register, decodeSpec, pySubscript_found m a v hv,
      bind, Except.bind, if_pos hd]
    split
    · simp only [pure, Except.pure, Except.ok.injEq]
      exact pyRound_int_div _ _
    · simp [pyRound_int_div, pure, Except.pure]

/-! ## `SolarInverter.read_modbus` (the paged reader)

The Modbus transport is an oracle from (page address, attempt index) to
the list of register values returned by that attempt.
`SolarInverter.read_registers` catches every exception and returns the
empty list, so a failed attempt is exactly an empty oracle answer. -/

/-- `SolarInverter.FRAME_READ_RETRIES`. -/
def FRAME_READ_RETRIES : ℕ := 5

/-- `SolarInverter.REGISTER_PAGE`. -/
def REGISTER_PAGE : ℤ := 124

/-- A Modbus transport: page address and attempt index to returned values. -/
abbrev Transport := ℤ → ℕ → List ℤ

/-- `SolarInverter.read_registers(page_address)` at a given attempt:
the answer of the oracle (exceptions are caught there and yield `[]`). -/
def read_registers (oracle : Transport) (page_address : ℤ) (attempt : ℕ) :
    List ℤ :=
  oracle page_address attempt

/-- The inner `for ret in range(FRAME_READ_RETRIES)` loop: each iteration
reassigns `values`, so the loop ends with the answer of the last attempt. -/
def retryValues (oracle : Transport) (page_address : ℤ) : List ℤ :=
  (List.range FRAME_READ_RETRIES).foldl
    (fun _values ret => read_registers oracle page_address ret) []

/-- `\x7bpage_address + i: val for i, val in enumerate(values)\x7d`. -/
def enumFrom (base : ℤ) : List ℤ → List (ℤ × ℤ)
  | [] => []
  | v :: vs => (base, v) :: enumFrom (base + 1) vs

/-- The `for p in range(pages)` loop of `SolarInverter.read_modbus`, over
the list of remaining page indices.  Mirrors the source line for line: the
`if len(values) > 0: break` sits at page-loop level, before the
`register_map |= ...` merge, so a non-empty result leaves the loop with
the map untouched, and the merge line runs only when `values` is empty. -/
def read_modbus_loop (oracle : Transport) (start_address : ℤ) :
    List ℕ → RegMap → RegMap
  | [], register_map => register_map
  | p :: rest, register_map =>
    let page_address := start_address + REGISTER_PAGE * (p : ℤ)
    let values := retryValues oracle page_address
    if 0 < values.length then register_map
    else
      read_modbus_loop oracle start_address rest
        (dictUpdate register_map (enumFrom page_address values))

/-- `SolarInverter.read_modbus(register_map, start_address, pages)`,
returning the final state of the mutated `register_map`. -/
def read_modbus (oracle : Transport) (register_map : RegMap)
    (start_address : ℤ) (pages : ℕ) : RegMap :=
  read_modbus_loop oracle start_address (List.range pages) register_map

/-- A transport whose first four attempts at every page fail and whose
fifth attempt returns a full page of 124 values `7`. -/
def fifthTryTransport : Transport :=
  fun _page_address attempt =>
    if attempt = 4 then List.replicate 124 7 else []

/-! ## `SolarInverter.read_serial_data` (the poll cycle) -/

/-- The value returned by `read_serial_data`: either the bare `None` of
the uninitialized-instrument branch, or a `(log_data, success)` pair. -/
inductive ReadRet where
  | bare
  | pair (log_data : Option Snap) (success : Bool)
deriving DecidableEq

/-- The tuple unpacking done by the caller,
`log_data, poll_success = solar_inverter.read_serial_data()`:
it succeeds exactly on a pair, and fails (TypeError) on the bare `None`. -/
def unpackPair : ReadRet → Option (Option Snap × Bool)
  | .bare => none
  | .pair log_data success => some (log_data, success)

/-- `SolarInverter.read_serial_data()`, with the outcome of the
register-read-plus-decode stage (`read_modbus` twice, then
`get_telemetry`) passed in as `telem`, and `last_status` as explicit
state.  Returns the `ReadRet` and the new `last_status`.  The
`if telemetry_feedback is None` guard is dead (`get_telemetry` returns a
dict or raises) and has no counterpart here; a raised exception lands in
the `except` clause, which logs it and returns `(None, False)`. -/
def read_serial_data (instrument : Bool) (last_status : Option Snap)
    (telem : Except PyErr Snap) : ReadRet × Option Snap :=
  if instrument = false then (.bare, last_status)
  else
    match telem with
    | .error _e => (.pair none false, last_status)
    | .ok log_data =>
      if last_status = none ∨ ¬ last_status = some log_data then
        (.pair (some log_data) true, some log_data)
      else
        (.pair none true, last_status)

/-- The full poll-cycle pipeline as assembled in the source: start from an
empty map, read pages at 100 (3 pages) and 600 (1 page), decode, compare. -/
def read_serial_data_full (oracle : Transport) (instrument : Bool)
    (last_status : Option Snap) : ReadRet × Option Snap :=
  let register_map : RegMap := []
  let register_map := read_modbus oracle register_map 100 3
  let register_map := read_modbus oracle register_map 600 1
  read_serial_data instrument last_status (get_telemetry (.dict register_map))

/-! ## Availability, health endpoint, and main loop -/

/-- `_compute_max_age_seconds()`, parameterized by the configured
`MQTT_UPDATE_INTERVAL` (already reduced to an integer by the caller). -/
def compute_max_age_seconds (update_interval : ℤ) : ℤ :=
  let cycle_pause := update_interval
  let expected_cycle := max cycle_pause 0
  max 15 (expected_cycle * 3 + 5)

/-- The online test of `_publish_inverter_availability`:
`last_success > 0 and (now - last_success) <= max_age`. -/
def availabilityOnline (last_success now : ℚ) (update_interval : ℤ) : Bool :=
  decide (0 < last_success) &&
    decide (now - last_success ≤ (compute_max_age_seconds update_interval : ℚ))

/-- The health conjunction of `HealthHandler.do_GET`: MQTT connected,
network loop alive, serial port open, and
`(now - last_update_ts) < max_age` (strict). -/
def healthyCheck (mqtt_connected loop_running serial_open : Bool)
    (now last_update_ts : ℚ) (update_interval : ℤ) : Bool :=
  mqtt_connected && loop_running && serial_open &&
    decide (now - last_update_ts < (compute_max_age_seconds update_interval : ℚ))

/-- HTTP statuses sent by `HealthHandler.do_GET`. -/
inductive HttpStatus where
  | ok200
  | unavailable503
  | notFound404
deriving DecidableEq

/-- `HealthHandler.do_GET`: 404 off the fixed path, else 200 when healthy
and 503 otherwise. -/
def do_GET (path : String) (mqtt_connected loop_running serial_open : Bool)
    (now last_update_ts : ℚ) (update_interval : ℤ) : HttpStatus :=
  if ¬ path = "/health" then .notFound404
  else if healthyCheck mqtt_connected loop_running serial_open now
      last_update_ts update_interval then .ok200
  else .unavailable503

/-- The per-device record built in `main` (`app_state.inverter`), without
the constant `address` field. -/
structure InvState where
  last_success_ts : ℚ
  publish_counter : ℕ
  availability : String
deriving DecidableEq

/-- The record as initialized in `main` before the loop starts. -/
def initialInverter : InvState :=
  { last_success_ts := 0, publish_counter := 0, availability := "offline" }

/-- `main` line 632: `last_update_ts = time.time()` — the process-wide
last-success timestamp starts at the startup wall-clock time, not 0. -/
def startup_last_update_ts (startup_time : ℚ) : ℚ := startup_time

/-- Messages published on the broker during one main-loop iteration, with
the payloads the claims are about. -/
inductive Msg where
  | heartbeat (publish_counter : ℕ)
  | deviceAvailability (payload : String)
  | sensors (snap : Snap)
  | processAvailability
deriving DecidableEq

/-- `_publish_inverter_availability(inverter, now)`: compute the desired
state; publish it and store it only when it differs from the stored one. -/
def publish_inverter_availability (inv : InvState) (now : ℚ)
    (update_interval : ℤ) : List Msg × InvState :=
  let is_online := availabilityOnline inv.last_success_ts now update_interval
  let desired := if is_online then "online" else "offline"
  if ¬ inv.availability = desired then
    ([.deviceAvailability desired], { inv with availability := desired })
  else
    ([], inv)

/-- One iteration of the `while True` body of `main`, from the point where
`read_serial_data` has produced the pair `(log_data, poll_success)`.
Returns the list of published messages (in publish order), the new
inverter record, and the new `last_update_ts`. -/
def mainIteration (inv : InvState) (last_update_ts : ℚ)
    (log_data : Option Snap) (poll_success : Bool) (now : ℚ)
    (update_interval : ℤ) : List Msg × InvState × ℚ :=
  let step1 :=
    if poll_success then
      let inv1 : InvState :=
        { inv with last_success_ts := now,
                   publish_counter := inv.publish_counter + 1,
                   availability := "online" }
      (inv1, now,
        [Msg.heartbeat (inv.publish_counter + 1), Msg.deviceAvailability "online"])
    else (inv, last_update_ts, [])
  let inv1 := step1.1
  let lu1 := step1.2.1
  let msgs1 := step1.2.2
  let msgs2 :=
    match log_data with
    | some s => [Msg.sensors s]
    | none => []
  let step3 := publish_inverter_availability inv1 now update_interval
  (msgs1 ++ msgs2 ++ step3.1 ++ [Msg.processAvailability], step3.2, lu1)

/-- A run of main-loop iterations: each cycle supplies the poll outcome
and the wall-clock time observed after the poll. -/
def runCycles (update_interval : ℤ) :
    InvState × ℚ → List ((Option Snap × Bool) × ℚ) → InvState × ℚ
  | st, [] => st
  | st, (outcome, now) :: rest =>
    let step := mainIteration st.1 st.2 outcome.1 outcome.2 now update_interval
    runCycles update_interval (step.2.1, step.2.2) rest

/-- A concrete decoded snapshot used in witnesses. -/
def sampleSnap : Snap := [("battery_voltage", 44)]

lemma mainIteration_counter (inv : InvState) (lu : ℚ) (d : Option Snap)
    (ok : Bool) (now : ℚ) (q : ℤ) :
    (mainIteration inv lu d ok now q).2.1.publish_counter =
      inv.publish_counter + (if ok = true then 1 else 0) := by
  cases ok <;>
    simp [mainIteration, publish_inverter_availability] <;>
    split_ifs <;> simp

lemma runCycles_counter (q : ℤ) :
    ∀ (cycles : List ((Option Snap × Bool) × ℚ)) (st : InvState × ℚ),
    (runCycles q st cycles).1.publish_counter =
      st.1.publish_counter + cycles.countP (fun c => c.1.2) := by
  intro cycles
  induction cycles with
  | nil => intro st; simp [runCycles]
  | cons c rest ih =>
    intro st
    rcases c with ⟨outcome, now⟩
    rw [runCycles, ih]
    rw [mainIteration_counter]
    rw [List.countP_cons]
    rcases outcome with ⟨d, ok⟩
    cases ok <;> simp <;> omega

/-! ## Claim theorems -/

/-- C1 (code bug): with a transport that fails the first four attempts of
every page and returns a full 124-value page on the fifth attempt, the
retry loop does end with a non-empty `values` (length 124), yet
`read_modbus` starting at address 100 with 3 pages leaves the accumulator
map empty — address 100 (and every other page address) is absent — because
the `break` on a non-empty result exits the page loop before the merge
line, which is only reachable with an empty result.  The post-state the
claim promises (the registers of the page present at `startAddress + i`)
fails. -/
theorem c1_fifth_attempt_page_never_merged :
    (retryValues fifthTryTransport 100).length = 124
    ∧ read_modbus fifthTryTransport [] 100 3 = []
    ∧ dictLookup (read_modbus fifthTryTransport [] 100 3) 100 = none := by
  refine ⟨rfl, rfl, rfl⟩

/-- C2 (code bug): every call site in `get_telemetry` passes the literal
register address as the first positional argument and the map as the
second, while `process_register(self, register_map, address, ...)` expects
them the other way round; subscripting the `int` address with the dict
therefore raises `TypeError` on every input map — even on `completeMap`,
which holds every schema address — so the mapper never returns a snapshot
and never raises a `KeyError` naming a missing address. -/
theorem c2_get_telemetry_always_type_error :
    (∀ m : RegMap, get_telemetry (.dict m) = .error .typeError)
    ∧ get_telemetry (.dict completeMap) = .error .typeError
    ∧ telemetrySchema.all
        (fun e => (dictLookup completeMap e.address).isSome) = true := by
  refine ⟨fun m => rfl, rfl, by decide⟩

/-- C3: `process_register`, applied with the map and address in their
declared roles, decodes a stored 16-bit raw value exactly as the
decoder contract `decodeSpec` of the spec prescribes (twos-complement
reinterpretation when signed and above 32767, then exact division by
`10 ^ decimals` — the rounding step is the identity because the quotient
already has exactly `decimals` fractional digits); in particular raw 65535
with `decimals = 0, signed = true` decodes to `-1`, and raw 2200 with
`decimals = 1, signed = false` decodes to `220`. -/
theorem c3_register_decode (m : RegMap) (a v : ℤ) (d : ℕ) (s : Bool)
    (hv : dictLookup m a = some v) (hlo : 0 ≤ v) (hhi : v < 65536) :
    process_register (.dict m) (.int a) d s = .ok (decodeSpec v d s)
    ∧ process_register (.dict [(276, 1), (277, 65535)]) (.int 277) 0 true
        = .ok (-1)
    ∧ process_register (.dict [(276, 1), (277, 2200)]) (.int 277) 1 false
        = .ok 220 := by
  refine ⟨process_register_eval m a v d s hv, ?_, ?_⟩
  · rw [process_register_eval [(276, 1), (277, 65535)] 277 65535 0 true
      (by decide)]
    norm_num [decodeSpec]
  · rw [process_register_eval [(276, 1), (277, 2200)] 277 2200 1 false
      (by decide)]
    norm_num [decodeSpec]

/-- C3 witness: the theorem applied at a concrete map and value. -/
theorem c3_register_decode_witness :
    process_register (.dict [(277, 2200)]) (.int 277) 1 false
      = .ok (decodeSpec 2200 1 false) :=
  (c3_register_decode [(277, 2200)] 277 2200 1 false rfl (by norm_num)
    (by norm_num)).1

/-- C4: with the instrument initialized, the poll cycle returns
`(some snapshot, true)` exactly when decoding succeeded and the snapshot
is the first one or differs from the remembered one (which is then
updated); `(none, true)` when decoding succeeded but the snapshot is
unchanged; and `(none, false)` whenever the read/decode stage raised,
the error being absorbed rather than propagated. -/
theorem c4_poll_cycle_outcomes (last : Option Snap)
    (telem : Except PyErr Snap) :
    (∀ s, telem = .ok s → (last = none ∨ ¬ last = some s) →
      read_serial_data true last telem = (.pair (some s) true, some s))
    ∧ (∀ s, telem = .ok s → last = some s →
      read_serial_data true last telem = (.pair none true, last))
    ∧ (∀ e, telem = .error e →
      read_serial_data true last telem = (.pair none false, last))
    ∧ (∀ s b st, read_serial_data true last telem = (.pair (some s) b, st) →
      b = true ∧ st = some s ∧ telem = .ok s
        ∧ (last = none ∨ ¬ last = some s)) := by
  refine ⟨?_, ?_, ?_, ?_⟩
  · intro s hs hcond
    subst hs
    simp [read_serial_data, hcond]
  · intro s hs hlast
    subst hs
    subst hlast
    simp [read_serial_data]
  · intro e he
    subst he
    simp [read_serial_data]
  · intro s b st h
    cases telem with
    | error e => simp [read_serial_data] at h
    | ok t =>
      by_cases hc : last = none ∨ ¬ last = some t
      · have he : read_serial_data true last (.ok t)
            = (.pair (some t) true, some t) := by
          simp [read_serial_data, hc]
        rw [he] at h
        simp only [Prod.mk.injEq, ReadRet.pair.injEq, Option.some.injEq] at h
        obtain ⟨⟨hts, hb⟩, hst⟩ := h
        subst hts
        exact ⟨hb.symm, hst.symm, rfl, hc⟩
      · have he : read_serial_data true last (.ok t)
            = (.pair none true, last) := by
          simp [read_serial_data, hc]
        rw [he] at h
        simp at h

/-- C4 witness: the three outcomes at concrete inputs. -/
theorem c4_poll_cycle_outcomes_witness :
    read_serial_data true none (.ok sampleSnap)
      = (.pair (some sampleSnap) true, some sampleSnap)
    ∧ read_serial_data true (some sampleSnap) (.ok sampleSnap)
      = (.pair none true, some sampleSnap)
    ∧ read_serial_data true (some sampleSnap) (.error .typeError)
      = (.pair none false, some sampleSnap) :=
  ⟨(c4_poll_cycle_outcomes none (.ok sampleSnap)).1 sampleSnap rfl
      (Or.inl rfl),
   (c4_poll_cycle_outcomes (some sampleSnap) (.ok sampleSnap)).2.1 sampleSnap
      rfl rfl,
   (c4_poll_cycle_outcomes (some sampleSnap) (.error .typeError)).2.2.1
      .typeError rfl⟩

/-- C5: the watchdog deadline equals `max 15 (3 * pollInterval + 5)` for
every integer interval; for interval 30 it is 95; the device is judged
online exactly when the last success timestamp is positive and the age is
at most the deadline; at age 94 (interval 30) it is online and at age 96
offline. -/
theorem c5_max_age_and_online (p : ℤ) (now : ℚ) (hnow : (94 : ℚ) < now) :
    compute_max_age_seconds p = max 15 (3 * p + 5)
    ∧ compute_max_age_seconds 30 = 95
    ∧ (∀ last t : ℚ, ∀ q : ℤ,
        availabilityOnline last t q = true ↔
          0 < last ∧ t - last ≤ (compute_max_age_seconds q : ℚ))
    ∧ availabilityOnline (now - 94) now 30 = true
    ∧ availabilityOnline (now - 96) now 30 = false := by
  have hm : ((compute_max_age_seconds 30 : ℤ) : ℚ) = 95 := by
    norm_num [compute_max_age_seconds]
  refine ⟨?_, by norm_num [compute_max_age_seconds], ?_, ?_, ?_⟩
  · simp only [compute_max_age_seconds]
    omega
  · intro last t q
    simp [availabilityOnline]
  · simp only [availabilityOnline, hm, Bool.and_eq_true, decide_eq_true_eq]
    constructor
    · linarith
    · linarith
  · rw [Bool.eq_false_iff]
    simp only [availabilityOnline, hm, ne_eq, Bool.and_eq_true,
      decide_eq_true_eq, not_and]
    intro _h1 h2
    linarith

/-- C5 witness: the theorem at interval 30 and wall time 1000. -/
theorem c5_max_age_and_online_witness :
    compute_max_age_seconds 30 = 95
    ∧ availabilityOnline (1000 - 94) 1000 30 = true
    ∧ availabilityOnline (1000 - 96) 1000 30 = false :=
  ⟨(c5_max_age_and_online 30 1000 (by norm_num)).2.1,
   (c5_max_age_and_online 30 1000 (by norm_num)).2.2.2.1,
   (c5_max_age_and_online 30 1000 (by norm_num)).2.2.2.2⟩

/-- C6 counterexample: an iteration whose poll succeeded while the stored
availability is already `"online"` and the computed state is still online
(so the claim demands that no per-device availability message be sent)
nevertheless publishes one — the main loop emits `"online"`
unconditionally on every successful poll before the conditional
transition check runs. -/
theorem c6_unconditional_online_counterexample :
    (if availabilityOnline 50 100 30 then "online" else "offline")
      = "online"
    ∧ (⟨50, 0, "online"⟩ : InvState).availability = "online"
    ∧ Msg.deviceAvailability "online"
        ∈ (mainIteration ⟨50, 0, "online"⟩ 50 none true 100 30).1 := by
  have h1 : availabilityOnline 50 100 30 = true := by
    simp only [availabilityOnline, Bool.and_eq_true, decide_eq_true_eq]
    norm_num [compute_max_age_seconds]
  have h2 : availabilityOnline 100 100 30 = true := by
    simp only [availabilityOnline, Bool.and_eq_true, decide_eq_true_eq]
    norm_num [compute_max_age_seconds]
  refine ⟨by rw [h1]; rfl, rfl, ?_⟩
  simp [mainIteration, publish_inverter_availability, h2]

/-- C6 amended: the conditional helper `_publish_inverter_availability`
publishes exactly when the computed state differs from the stored one and
always leaves the stored state equal to the computed one; in an iteration
whose poll failed this is the only per-device availability traffic, so
there the biconditional of the claim holds; but an iteration whose poll
succeeded always publishes a per-device `"online"` message, unconditionally. -/
theorem c6_availability_transition_amended (inv : InvState) (lu now : ℚ)
    (q : ℤ) (d : Option Snap) :
    (¬ (publish_inverter_availability inv now q).1 = [] ↔
      ¬ inv.availability =
        (if availabilityOnline inv.last_success_ts now q
         then "online" else "offline"))
    ∧ ((publish_inverter_availability inv now q).2.availability =
        (if availabilityOnline inv.last_success_ts now q
         then "online" else "offline"))
    ∧ ((∃ pl, Msg.deviceAvailability pl
          ∈ (mainIteration inv lu d false now q).1) ↔
      ¬ inv.availability =
        (if availabilityOnline inv.last_success_ts now q
         then "online" else "offline"))
    ∧ Msg.deviceAvailability "online"
        ∈ (mainIteration inv lu d true now q).1 := by
  refine ⟨?_, ?_, ?_, ?_⟩
  · simp only [publish_inverter_availability]
    split_ifs <;> simp_all
  · simp only [publish_inverter_availability]
    split_ifs <;> simp_all
  · simp only [mainIteration, publish_inverter_availability]
    cases d <;> split_ifs <;> simp_all
  · simp only [mainIteration]
    split_ifs <;> simp_all

/-- C6 amended witness: the unconditional publish at a concrete state. -/
theorem c6_availability_transition_amended_witness :
    Msg.deviceAvailability "online"
      ∈ (mainIteration initialInverter 0 none true 100 30).1 :=
  (c6_availability_transition_amended initialInverter 0 100 30 none).2.2.2

/-- C7: the probe answers 200 on the fixed path exactly when all four
health conjuncts hold, 503 on the fixed path when any fails, and 404 on
every other path. -/
theorem c7_health_endpoint (path : String) (mc lr so : Bool)
    (now lu : ℚ) (q : ℤ) :
    (do_GET path mc lr so now lu q = .ok200 ↔
      path = "/health" ∧ mc = true ∧ lr = true ∧ so = true ∧
        now - lu < (compute_max_age_seconds q : ℚ))
    ∧ (do_GET path mc lr so now lu q = .unavailable503 ↔
      path = "/health" ∧
        ¬ (mc = true ∧ lr = true ∧ so = true ∧
          now - lu < (compute_max_age_seconds q : ℚ)))
    ∧ (¬ path = "/health" → do_GET path mc lr so now lu q = .notFound404) := by
  have hkey : healthyCheck mc lr so now lu q = true ↔
      (mc = true ∧ lr = true ∧ so = true ∧
        now - lu < (compute_max_age_seconds q : ℚ)) := by
    simp [healthyCheck, and_assoc]
  by_cases hp : path = "/health"
  · subst hp
    have hdg : do_GET "/health" mc lr so now lu q =
        (if healthyCheck mc lr so now lu q then .ok200
         else .unavailable503) := by
      simp [do_GET]
    by_cases hh : healthyCheck mc lr so now lu q = true
    · rw [hdg, if_pos hh]
      obtain ⟨h1, h2, h3, h4⟩ := hkey.mp hh
      refine ⟨?_, ?_, ?_⟩
      · simp [h1, h2, h3, h4]
      · simp [h1, h2, h3, h4]
      · intro hcontra
        exact absurd rfl hcontra
    · rw [hdg, if_neg hh]
      have hnot : ¬ (mc = true ∧ lr = true ∧ so = true ∧
          now - lu < (compute_max_age_seconds q : ℚ)) :=
        fun hcontra => hh (hkey.mpr hcontra)
      refine ⟨?_, ?_, ?_⟩
      · simp [hnot]
      · simp [hnot]
      · intro hcontra
        exact absurd rfl hcontra
  · have hdg : do_GET path mc lr so now lu q = .notFound404 := by
      simp [do_GET, hp]
    rw [hdg]
    refine ⟨?_, ?_, ?_⟩
    · simp [hp]
    · simp [hp]
    · intro _h
      rfl

/-- C7 witness: concrete 200, 503, and 404 responses via the theorem. -/
theorem c7_health_endpoint_witness :
    do_GET "/metrics" true true true 10 0 30 = .notFound404
    ∧ do_GET "/health" true true true 10 0 30 = .ok200
    ∧ do_GET "/health" false true true 10 0 30 = .unavailable503 :=
  ⟨(c7_health_endpoint "/metrics" true true true 10 0 30).2.2 (by decide),
   (c7_health_endpoint "/health" true true true 10 0 30).1.mpr
     ⟨rfl, rfl, rfl, rfl, by norm_num [compute_max_age_seconds]⟩,
   (c7_health_endpoint "/health" false true true 10 0 30).2.1.mpr
     ⟨rfl, by simp⟩⟩

/-- C8: across any run of main-loop iterations, the publish counter ends
at its initial value plus the number of successful cycles; a successful
iteration adds exactly 1, a failed one adds 0, and the counter never
decreases. -/
theorem c8_publish_counter (st0 : InvState) (lu0 : ℚ) (q : ℤ)
    (cycles : List ((Option Snap × Bool) × ℚ)) :
    (runCycles q (st0, lu0) cycles).1.publish_counter =
      st0.publish_counter + cycles.countP (fun c => c.1.2)
    ∧ (∀ d now, (mainIteration st0 lu0 d true now q).2.1.publish_counter =
        st0.publish_counter + 1)
    ∧ (∀ d now, (mainIteration st0 lu0 d false now q).2.1.publish_counter =
        st0.publish_counter)
    ∧ st0.publish_counter ≤ (runCycles q (st0, lu0) cycles).1.publish_counter := by
  refine ⟨runCycles_counter q cycles (st0, lu0), ?_, ?_, ?_⟩
  · intro d now
    simpa using mainIteration_counter st0 lu0 d true now q
  · intro d now
    simpa using mainIteration_counter st0 lu0 d false now q
  · rw [runCycles_counter q cycles (st0, lu0)]
    exact Nat.le_add_right _ _

/-- C9: with the instrument unset the poll cycle returns the bare `None`,
on which the tuple unpacking by the caller fails; with the instrument set the
result is always a `(log_data, success)` pair and unpacking succeeds. -/
theorem c9_bare_none_return (last : Option Snap) (telem : Except PyErr Snap) :
    read_serial_data false last telem = (.bare, last)
    ∧ unpackPair (read_serial_data false last telem).1 = none
    ∧ (∀ last2 telem2, ∃ d ok,
        (read_serial_data true last2 telem2).1 = .pair d ok
        ∧ unpackPair (read_serial_data true last2 telem2).1 = some (d, ok)) := by
  refine ⟨rfl, rfl, ?_⟩
  intro last2 telem2
  cases telem2 with
  | error e => exact ⟨none, false, rfl, rfl⟩
  | ok t =>
    by_cases hc : last2 = none ∨ ¬ last2 = some t
    · refine ⟨some t, true, ?_, ?_⟩ <;> simp [read_serial_data, unpackPair, hc]
    · refine ⟨none, true, ?_, ?_⟩ <;> simp [read_serial_data, unpackPair, hc]

/-- C10: at startup the process-wide last-success timestamp is the startup
wall-clock time (not 0), the per-device record still shows no successful
read, and for any probe time within the deadline the health endpoint
answers 200 when the other three conjuncts hold. -/
theorem c10_startup_probe_fresh (t0 now : ℚ) (q : ℤ)
    (h : now - startup_last_update_ts t0 < (compute_max_age_seconds q : ℚ)) :
    startup_last_update_ts t0 = t0
    ∧ initialInverter.last_success_ts = 0
    ∧ do_GET "/health" true true true now (startup_last_update_ts t0) q
        = .ok200 := by
  refine ⟨rfl, rfl, ?_⟩
  simp [do_GET, healthyCheck, h]

/-- C10 witness: ten seconds after a startup at wall time 500. -/
theorem c10_startup_probe_fresh_witness :
    startup_last_update_ts 500 = 500
    ∧ initialInverter.last_success_ts = 0
    ∧ do_GET "/health" true true true 510 (startup_last_update_ts 500) 30
        = .ok200 :=
  c10_startup_probe_fresh 500 510 30
    (by norm_num [startup_last_update_ts, compute_max_age_seconds])

end InverterAddon
